import Mathlib

/-!
Verification of the MQTT telemetry ingestion pipeline
(`server/mqtt_to_csv.py` and `server/mqtt_to_mongo.py`).

The Python sources are shallowly embedded below. JSON values are modelled by
`JValue`; Python dictionaries by association lists; Python truthiness (used by
the `a or b` idiom in field resolution) by `JValue.truthy`; the CSV file by a
list of cell rows; the MQTT message handlers by pure functions taking the
external outcomes (HTTP status, insert success, ping success) as oracles.
-/

/-- A parsed JSON value, as produced by the Python `json.loads` call.
Python `None` is `JValue.null`; numbers are modelled by rationals. -/
inductive JValue where
  | null
  | bool (b : Bool)
  | num (q : ℚ)
  | str (s : String)
  | arr (xs : List JValue)
  | obj (kvs : List (String × JValue))
  deriving Repr

/-- Python truthiness of a JSON value (`bool(v)`):
`None`, `False`, `0`, `""`, `[]`, `{}` are falsy, everything else truthy. -/
def JValue.truthy : JValue → Bool
  | .null => false
  | .bool b => b
  | .num q => decide (q ≠ 0)
  | .str s => decide (s ≠ "")
  | .arr xs => !xs.isEmpty
  | .obj kvs => !kvs.isEmpty

/-- The Python expression `a or b`: returns `a` when `a` is truthy, otherwise `b`. -/
def pyOr (a b : JValue) : JValue :=
  if a.truthy then a else b

/-- The Python call `d.get(k, default)` on a dictionary modelled as an association
list (keys unique, first binding wins as in a dict lookup). -/
def dictGet (p : List (String × JValue)) (k : String) (d : JValue) : JValue :=
  (p.lookup k).getD d

/-- Groups of characters obtained by splitting on a separator character.
The result is never empty (splitting the empty list gives one empty group),
mirroring the Python method `str.split(sep)`, which never returns an empty list. -/
def splitGroups (sep : Char) : List Char → List (List Char)
  | [] => [[]]
  | c :: cs =>
    match splitGroups sep cs with
    | [] => [[]]
    | g :: gs => if c = sep then [] :: g :: gs else (c :: g) :: gs

/-- the Python expression `topic.split(sep)` with `sep` the slash: the list of `/`-separated segments;
`"".split('/') = [""]`, so the result is always non-empty. -/
def pySplit (s : String) (sep : Char) : List String :=
  (splitGroups sep s.data).map String.mk

/-- Topic classification of `mqtt_to_csv.py` `on_message` (lines 129-139):
split the topic on `/`; `energy` topics with at least 4 segments yield
`(parts[1], parts[2])`; topics whose first segment is `battery` yield the
fixed pair `("battery", "esp32_bms")`; anything else yields `("", "")`. -/
def classifyCsv (topic : String) : String × String :=
  let parts := pySplit topic '/'
  if 4 ≤ parts.length ∧ parts.headD "" = "energy" then
    (parts.getD 1 "", parts.getD 2 "")
  else if parts.headD "" = "battery" then
    ("battery", "esp32_bms")
  else
    ("", "")

/-- Topic classification of `mqtt_to_mongo.py` `on_message` (lines 108-116):
identical branching, but the battery branch yields `("esp32", "esp32_1")`. -/
def classifyMongo (topic : String) : String × String :=
  let parts := pySplit topic '/'
  if 4 ≤ parts.length ∧ parts.headD "" = "energy" then
    (parts.getD 1 "", parts.getD 2 "")
  else if parts.headD "" = "battery" then
    ("esp32", "esp32_1")
  else
    ("", "")

/-- The CSV row built by `mqtt_to_csv.py` `on_message` (lines 142-157).
Metric fields hold the resolved `JValue` (the empty string `.str ""` when the
code falls back to the `.get(k, "")` default); `raw_payload` is the undecoded text. -/
structure CsvRow where
  ts : Int
  ts_iso : String
  topic : String
  device_type : String
  device_id : String
  voltage : JValue
  shunt_mV : JValue
  current : JValue
  power : JValue
  soc_percent : JValue
  soh_percent : JValue
  uptime_ms : JValue
  raw_payload : String
  deriving Repr

/-- Normalization performed by `mqtt_to_csv.py` `on_message` (lines 120-157).
`parsed` is the result of `json.loads(payload_raw)` (`none` when parsing
raised). The code sets `p = payload if isinstance(payload, dict) else {}`,
then resolves each field with Python `or` chains such as
`p.get("bus_V") or p.get("voltage", "")`. -/
def normalizeCsv (topic raw : String) (parsed : Option JValue)
    (ts : Int) (iso : String) : CsvRow :=
  let p : List (String × JValue) :=
    match parsed with
    | some (.obj kvs) => kvs
    | _ => []
  let (device_type, device_id) := classifyCsv topic
  { ts := ts
    ts_iso := iso
    topic := topic
    device_type := device_type
    device_id := device_id
    voltage := pyOr (dictGet p "bus_V" .null) (dictGet p "voltage" (.str ""))
    shunt_mV := dictGet p "shunt_mV" (.str "")
    current := pyOr (dictGet p "current_A" .null) (dictGet p "current" (.str ""))
    power := pyOr (dictGet p "power_W" .null) (dictGet p "power" (.str ""))
    soc_percent := dictGet p "soc_percent" (.str "")
    soh_percent := dictGet p "soh_percent" (.str "")
    uptime_ms := dictGet p "uptime_ms" (.str "")
    raw_payload := raw }

/-- The MongoDB document built by `mqtt_to_mongo.py` `on_message`
(lines 118-132). Fields with no truthy source key are `JValue.null`
(Python `None`), because `payload.get(k)` defaults to `None`. -/
structure MongoDoc where
  ts : Int
  ts_iso : String
  topic : String
  device_type : String
  device_id : String
  voltage : JValue
  current : JValue
  power : JValue
  soc : JValue
  soh : JValue
  uptime_ms : JValue
  raw_payload : String
  received_at : String
  deriving Repr

/-- Document construction of `mqtt_to_mongo.py` from a payload dictionary. -/
def mkMongoDoc (topic raw : String) (p : List (String × JValue))
    (ts : Int) (iso : String) : MongoDoc :=
  let (device_type, device_id) := classifyMongo topic
  { ts := ts
    ts_iso := iso
    topic := topic
    device_type := device_type
    device_id := device_id
    voltage := pyOr (dictGet p "bus_V" .null) (dictGet p "voltage" .null)
    current := pyOr (dictGet p "current_A" .null) (dictGet p "current" .null)
    power := pyOr (dictGet p "power_W" .null) (dictGet p "power" .null)
    soc := pyOr (dictGet p "soc_percent" .null) (dictGet p "soc" .null)
    soh := pyOr (dictGet p "soh_percent" .null) (dictGet p "soh" .null)
    uptime_ms := pyOr (dictGet p "uptime_ms" .null) (dictGet p "uptime" .null)
    raw_payload := raw
    received_at := iso }

/-- Outcome of one `mqtt_to_mongo.py` `on_message` call (lines 97-142). -/
structure MongoMsgResult where
  docBuilt : Option MongoDoc
  inserted : Bool
  insertFailLogged : Bool
  msgErrorLogged : Bool
  loopContinues : Bool
  deriving Repr

/-- Handler `on_message` of `mqtt_to_mongo.py`: on `json.loads` failure the payload is
replaced by `{}` (line 103); on success with a dict the dict is used; on
success with a non-dict value (array, string, number, ...), `payload.get`
raises `AttributeError`, which only the outer message-boundary handler
(line 141) catches — no document is built or inserted, the error is logged
and the loop continues. `insertOk` is the oracle for `insert_one` success;
an insert failure is caught at line 138 and merely logged. -/
def mongoOnMessage (topic raw : String) (parsed : Option JValue)
    (ts : Int) (iso : String) (insertOk : Bool) : MongoMsgResult :=
  match parsed with
  | some (.obj kvs) =>
    { docBuilt := some (mkMongoDoc topic raw kvs ts iso)
      inserted := insertOk
      insertFailLogged := !insertOk
      msgErrorLogged := false
      loopContinues := true }
  | none =>
    { docBuilt := some (mkMongoDoc topic raw [] ts iso)
      inserted := insertOk
      insertFailLogged := !insertOk
      msgErrorLogged := false
      loopContinues := true }
  | some _ =>
    { docBuilt := none
      inserted := false
      insertFailLogged := false
      msgErrorLogged := true
      loopContinues := true }

/-- The fixed CSV header, `FIELDNAMES` of `mqtt_to_csv.py` (lines 43-47). -/
def FIELDNAMES : List String :=
  ["ts", "ts_iso", "topic", "device_type", "device_id",
   "voltage", "shunt_mV", "current", "power",
   "soc_percent", "soh_percent", "uptime_ms", "raw_payload"]

/-- The cells of one data row, in the order `csv.DictWriter` emits them
(the `FIELDNAMES` order), as written by `writer.writerow(row)` (line 162). -/
def rowCells (r : CsvRow) : List JValue :=
  [.num r.ts, .str r.ts_iso, .str r.topic, .str r.device_type, .str r.device_id,
   r.voltage, r.shunt_mV, r.current, r.power,
   r.soc_percent, r.soh_percent, r.uptime_ms, .str r.raw_payload]

/-- The header row as cells. -/
def headerCells : List JValue := FIELDNAMES.map .str

/-- Opening the CSV target in `MQTTToCSV.__init__` (lines 106-111): when the
file does not exist (`file = none`) it is created holding exactly the header
row; an existing file is left untouched (the code only opens for writing when
`not exists`). -/
def csvInit (file : Option (List (List JValue))) : List (List JValue) :=
  match file with
  | none => [headerCells]
  | some rows => rows

/-- One append to the CSV file (open in mode `'a'`, line 160): the new row is
added at the end, nothing else changes. -/
def csvAppend (file : List (List JValue)) (r : CsvRow) : List (List JValue) :=
  file ++ [rowCells r]

/-- Appending a sequence of readings, one `on_message` at a time. -/
def csvAppendAll (file : List (List JValue)) (rs : List CsvRow) : List (List JValue) :=
  rs.foldl csvAppend file

/-- the Python call `s.rstrip(sep)` with `sep` the slash, used on the Supabase base URL (line 222). -/
def rstripSlash (s : String) : String :=
  String.mk (s.data.reverse.dropWhile (fun c => c = '/')).reverse

/-- The record POSTed to Supabase: the `data` dict of `_send_to_supabase`
(lines 207-220). Unlike the CSV row, every fallback default is `None`. -/
structure SupabaseRecord where
  ts : Int
  ts_iso : String
  topic : String
  device_type : String
  device_id : String
  voltage : JValue
  current : JValue
  power : JValue
  soc : JValue
  soh : JValue
  uptime_ms : JValue
  raw_payload : String
  deriving Repr

/-- The single HTTP request issued by `requests.post` (lines 222-230). -/
structure HttpRequest where
  url : String
  apikey : String
  authorization : String
  contentType : String
  prefer : String
  body : List SupabaseRecord
  timeoutSeconds : Nat
  deriving Repr

/-- Builds the `data` dict from a payload dictionary and the already-built row. -/
def mkSupabaseRecord (p : List (String × JValue)) (row : CsvRow) (topic : String) :
    SupabaseRecord :=
  { ts := row.ts
    ts_iso := row.ts_iso
    topic := topic
    device_type := row.device_type
    device_id := row.device_id
    voltage := pyOr (dictGet p "bus_V" .null) (dictGet p "voltage" .null)
    current := pyOr (dictGet p "current_A" .null) (dictGet p "current" .null)
    power := pyOr (dictGet p "power_W" .null) (dictGet p "power" .null)
    soc := pyOr (dictGet p "soc_percent" .null) (dictGet p "soc" .null)
    soh := pyOr (dictGet p "soh_percent" .null) (dictGet p "soh" .null)
    uptime_ms := pyOr (dictGet p "uptime_ms" .null) (dictGet p "uptime" .null)
    raw_payload := row.raw_payload }

/-- Payload re-normalization inside `_send_to_supabase` (lines 198-205):
when the original payload is a dict it is used; otherwise the code re-parses
`row["raw_payload"] or "\x7b\x7d"` — a parse failure yields an empty dict, but a successful
parse to a non-dict makes the later `p.get` raise `AttributeError` (an
`Except.error` here). `json.loads` is deterministic, so re-parsing `raw`
yields `parsed` again (or an empty dict when `raw` is empty, since the
empty string is falsy and the literal text of an empty JSON object is
parsed instead). -/
def supabasePayloadDict (parsed : Option JValue) (raw : String) :
    Except String (List (String × JValue)) :=
  match parsed with
  | some (.obj kvs) => .ok kvs
  | _ =>
    match (if raw = "" then some (JValue.obj []) else parsed) with
    | some (.obj kvs) => .ok kvs
    | some _ => .error "AttributeError"
    | none => .ok []

/-- Method `_send_to_supabase` (lines 194-232): with `requests` unavailable it
raises before posting; otherwise it builds the payload dict (possibly raising
`AttributeError`), then issues exactly one POST and raises on a status other
than 200 or 201. The returned event list records the requests issued; the
`Except` records whether the call raised. `status` is the oracle for the
response status sent by the remote server. -/
def sendToSupabase (supabaseUrl supabaseKey : String) (hasRequests : Bool)
    (parsed : Option JValue) (row : CsvRow) (topic : String)
    (status : Nat) : List HttpRequest × Except String Unit :=
  if !hasRequests then
    ([], .error "requests is required for Supabase uploads")
  else
    match supabasePayloadDict parsed row.raw_payload with
    | .error e => ([], .error e)
    | .ok p =>
      let req : HttpRequest :=
        { url := rstripSlash supabaseUrl ++ "/rest/v1/telemetry"
          apikey := supabaseKey
          authorization := "Bearer " ++ supabaseKey
          contentType := "application/json"
          prefer := "return=representation"
          body := [mkSupabaseRecord p row topic]
          timeoutSeconds := 10 }
      if status = 200 ∨ status = 201 then
        ([req], .ok ())
      else
        ([req], .error "Supabase insert failed")

/-- Observable events of one `mqtt_to_csv.py` `on_message` call. -/
inductive Event where
  | csvRow (cells : List JValue)
  | httpPost (req : HttpRequest)
  | log (s : String)

/-- Events of the guarded Supabase attempt in `on_message` (lines 166-170):
the result of `_send_to_supabase` is inspected and, when it raised, the
exception is caught there and logged instead of propagating. -/
def supabaseTail (u k : String) (hasRequests : Bool) (parsed : Option JValue)
    (row : CsvRow) (topic : String) (status : Nat) : List Event :=
  match sendToSupabase u k hasRequests parsed row topic status with
  | (reqs, .ok _) => reqs.map .httpPost
  | (reqs, .error e) => reqs.map .httpPost ++ [.log ("Supabase upload failed: " ++ e)]

/-- Handler `on_message` of `mqtt_to_csv.py` (lines 118-172): normalize,
append the row to the CSV file, then — only when both Supabase URL and key
are configured — attempt the upload, with its exceptions caught at lines
167-170 and logged instead of propagating. The Bool is `true` iff the
handler returns normally so the subscription loop continues (the outer
handler at line 171 catches everything, so it always does). -/
def csvOnMessage (topic raw : String) (parsed : Option JValue)
    (ts : Int) (iso : String) (config : Option (String × String))
    (hasRequests : Bool) (status : Nat) : List Event × Bool :=
  let row := normalizeCsv topic raw parsed ts iso
  let tail : List Event :=
    match config with
    | none => []
    | some (u, k) => supabaseTail u k hasRequests parsed row topic status
  (Event.csvRow (rowCells row) :: tail, true)

/-- Steps of `MQTTToMongo.run` (lines 144-156), in execution order. -/
inductive RunStep where
  | mongoPing
  | mqttConnect
  | subscribeLoop
  deriving Repr, DecidableEq

/-- Method `run` of `MQTTToMongo` (lines 144-156): it first issues a ping
command against the Mongo client;
on failure it logs and re-raises (`Except.error`), never reaching
`self.mqtt.connect`; on success it proceeds to connect and loop.
`pingOk` is the oracle for the ping outcome. -/
def mongoRun (pingOk : Bool) : List RunStep × Except String Unit :=
  if pingOk then
    ([.mongoPing, .mqttConnect, .subscribeLoop], .ok ())
  else
    ([.mongoPing], .error "Cannot connect to MongoDB")

/-- The field-resolution scheme shared by both scripts, abstracted over the
ordered key list: every key but the last is looked up with a `None` default
and chained with Python `or`; the last key carries the final default (the
empty string in the CSV row, `None` in the Mongo document and the Supabase
record). -/
def resolveKeys (p : List (String × JValue)) (keys : List String) (d : JValue) : JValue :=
  match keys with
  | [] => d
  | [k] => dictGet p k d
  | k :: rest => pyOr (dictGet p k .null) (resolveKeys p rest d)

/-- C3: for every topic string, a topic with at least 4 slash-separated
segments whose first segment is `energy` classifies as (second segment,
third segment); otherwise a topic whose first segment is `battery`
classifies as the fixed legacy tag with the fixed sentinel id of the
respective program; any other topic classifies as two empty strings.
Both classifiers are total Lean functions, so no topic raises. -/
theorem classifier_rules (topic : String) :
    (4 ≤ (pySplit topic '/').length → (pySplit topic '/').headD "" = "energy" →
      classifyCsv topic = ((pySplit topic '/').getD 1 "", (pySplit topic '/').getD 2 "") ∧
      classifyMongo topic = ((pySplit topic '/').getD 1 "", (pySplit topic '/').getD 2 "")) ∧
    ((pySplit topic '/').headD "" = "battery" →
      classifyCsv topic = ("battery", "esp32_bms") ∧
      classifyMongo topic = ("esp32", "esp32_1")) ∧
    (¬(4 ≤ (pySplit topic '/').length ∧ (pySplit topic '/').headD "" = "energy") →
      (pySplit topic '/').headD "" ≠ "battery" →
      classifyCsv topic = ("", "") ∧ classifyMongo topic = ("", "")) := by
  refine ⟨fun h1 h2 => ?_, fun hb => ?_, fun hn hb => ?_⟩
  · simp only [List.headD_eq_head?_getD] at h2
    constructor <;> simp [classifyCsv, classifyMongo, h1, h2]
  · simp only [List.headD_eq_head?_getD] at hb
    constructor <;> simp [classifyCsv, classifyMongo, hb]
  · simp only [List.headD_eq_head?_getD] at hn hb
    constructor <;> simp [classifyCsv, classifyMongo, hn, hb]

/-- Witness for C3 at three concrete topics, one per rule. -/
theorem classifier_rules_witness :
    classifyCsv "energy/solar/panel7/telemetry" = ("solar", "panel7") ∧
    classifyMongo "battery/data" = ("esp32", "esp32_1") ∧
    classifyCsv "plug/x" = ("", "") := by
  refine ⟨?_, ?_, ?_⟩
  · exact ((classifier_rules "energy/solar/panel7/telemetry").1
      (by decide) (by decide)).1.trans (by decide)
  · exact ((classifier_rules "battery/data").2.1 (by decide)).2
  · exact ((classifier_rules "plug/x").2.2 (by decide) (by decide)).1

/-- C9 fails: on the topic `battery/data` the two programs disagree —
`mqtt_to_csv.py` yields `("battery", "esp32_bms")` while `mqtt_to_mongo.py`
yields `("esp32", "esp32_1")`, so they are not one and the same classifier. -/
theorem classifier_divergence :
    classifyCsv "battery/data" = ("battery", "esp32_bms") ∧
    classifyMongo "battery/data" = ("esp32", "esp32_1") ∧
    classifyCsv "battery/data" ≠ classifyMongo "battery/data" := by decide

/-- C9 amended: the two classification routines agree on every topic whose
first slash-separated segment is not `battery`; on battery topics they emit
different fixed pairs (see `classifier_divergence`). -/
theorem classifiers_agree_off_battery (topic : String)
    (h : (pySplit topic '/').headD "" ≠ "battery") :
    classifyCsv topic = classifyMongo topic := by
  simp only [List.headD_eq_head?_getD] at h
  simp only [classifyCsv, classifyMongo]
  split_ifs with h1 h2 <;> simp_all

/-- Witness for the amended C9 at a concrete non-battery topic. -/
theorem classifiers_agree_off_battery_witness :
    classifyCsv "energy/plug/p1/telemetry" = classifyMongo "energy/plug/p1/telemetry" :=
  classifiers_agree_off_battery "energy/plug/p1/telemetry" (by decide)

/-- C10: the battery rule ignores segment count — every topic whose first
slash-separated segment is `battery` (including the bare `battery` and
4-segment topics) gets the fixed tag and sentinel id of the respective
program — and the (total, hence never-raising) classifiers map the empty
string topic to two empty strings. -/
theorem battery_rule_ignores_segments :
    (∀ topic : String, (pySplit topic '/').headD "" = "battery" →
      classifyCsv topic = ("battery", "esp32_bms") ∧
      classifyMongo topic = ("esp32", "esp32_1")) ∧
    classifyCsv "" = ("", "") ∧ classifyMongo "" = ("", "") := by
  refine ⟨fun topic hb => ?_, by decide, by decide⟩
  simp only [List.headD_eq_head?_getD] at hb
  constructor <;> simp [classifyCsv, classifyMongo, hb]

/-- Witness for C10 at the bare topic `battery` and a 4-segment battery topic. -/
theorem battery_rule_ignores_segments_witness :
    classifyCsv "battery" = ("battery", "esp32_bms") ∧
    classifyMongo "battery/a/b/c" = ("esp32", "esp32_1") :=
  ⟨(battery_rule_ignores_segments.1 "battery" (by decide)).1,
   (battery_rule_ignores_segments.1 "battery/a/b/c" (by decide)).2⟩

/-- Skipping helper: a key bound to a falsy value (or absent) defers to the
remaining keys whenever more keys follow. -/
theorem resolveKeys_skip (p : List (String × JValue)) (k k2 : String)
    (rest : List String) (d : JValue)
    (h : ((p.lookup k).getD .null).truthy = false) :
    resolveKeys p (k :: k2 :: rest) d = resolveKeys p (k2 :: rest) d := by
  simp [resolveKeys, pyOr, dictGet, h]

/-- Default helper: when every key in the list is absent from the payload,
resolution yields exactly the final default. -/
theorem resolveKeys_all_absent (p : List (String × JValue)) (keys : List String)
    (d : JValue) (h : ∀ k ∈ keys, p.lookup k = none) :
    resolveKeys p keys d = d := by
  induction keys with
  | nil => rfl
  | cons k rest ih =>
    cases rest with
    | nil => simp [resolveKeys, dictGet, h k (by simp)]
    | cons k2 r2 =>
      rw [resolveKeys_skip p k k2 r2 d (by simp [h k (by simp), JValue.truthy])]
      exact ih fun x hx => h x (List.mem_cons_of_mem _ hx)

/-- C1 fails as stated: with payload `{"bus_V": 0, "voltage": 5}`, the first
present non-null value for the voltage field is `0` (under `bus_V`), yet
`mqtt_to_csv.py` resolves the field to `5` — Python `or` skips the present,
non-null but falsy `0`. -/
theorem first_non_null_counterexample :
    (normalizeCsv "t" "\x7b\"bus_V\": 0, \"voltage\": 5\x7d"
        (some (.obj [("bus_V", .num 0), ("voltage", .num 5)])) 0 "i").voltage
      = .num 5 ∧
    List.lookup "bus_V" [("bus_V", JValue.num 0), ("voltage", JValue.num 5)]
      = some (JValue.num 0) ∧
    JValue.num 0 ≠ JValue.null ∧
    JValue.num 5 ≠ JValue.num 0 := by
  refine ⟨rfl, rfl, ?_, ?_⟩
  · intro h
    cases h
  · intro h
    injection h with h
    norm_num at h

/-- C1 amended: each canonical field is resolved by the chain
`resolveKeys` over its ordered source-key list — the first *truthy* value
wins (a present but falsy value such as `0` or `null` is skipped, deferring
to later keys); when no earlier key is truthy the final lookup decides, so a
field whose source keys are all absent is the empty string in the CSV row
and `null` in the Mongo document, never `0`. -/
theorem field_resolution_amended :
    (∀ (kvs : List (String × JValue)) (topic raw : String) (ts : Int) (iso : String),
      (normalizeCsv topic raw (some (.obj kvs)) ts iso).voltage
          = resolveKeys kvs ["bus_V", "voltage"] (.str "") ∧
      (normalizeCsv topic raw (some (.obj kvs)) ts iso).current
          = resolveKeys kvs ["current_A", "current"] (.str "") ∧
      (normalizeCsv topic raw (some (.obj kvs)) ts iso).power
          = resolveKeys kvs ["power_W", "power"] (.str "") ∧
      (normalizeCsv topic raw (some (.obj kvs)) ts iso).soc_percent
          = resolveKeys kvs ["soc_percent"] (.str "") ∧
      (normalizeCsv topic raw (some (.obj kvs)) ts iso).shunt_mV
          = resolveKeys kvs ["shunt_mV"] (.str "") ∧
      (mkMongoDoc topic raw kvs ts iso).voltage
          = resolveKeys kvs ["bus_V", "voltage"] .null ∧
      (mkMongoDoc topic raw kvs ts iso).soc
          = resolveKeys kvs ["soc_percent", "soc"] .null ∧
      (mkMongoDoc topic raw kvs ts iso).uptime_ms
          = resolveKeys kvs ["uptime_ms", "uptime"] .null) ∧
    (∀ (p : List (String × JValue)) (k : String) (rest : List String)
        (d v : JValue), p.lookup k = some v → v.truthy = true →
      resolveKeys p (k :: rest) d = v) ∧
    (∀ (p : List (String × JValue)) (k k2 : String) (rest : List String)
        (d v : JValue), p.lookup k = some v → v.truthy = false →
      resolveKeys p (k :: k2 :: rest) d = resolveKeys p (k2 :: rest) d) ∧
    (∀ (p : List (String × JValue)) (keys : List String) (d : JValue),
      (∀ k ∈ keys, p.lookup k = none) → resolveKeys p keys d = d) := by
  refine ⟨?_, ?_, ?_, resolveKeys_all_absent⟩
  · intro kvs topic raw ts iso
    exact ⟨rfl, rfl, rfl, rfl, rfl, rfl, rfl, rfl⟩
  · intro p k rest d v h ht
    cases rest with
    | nil => simp [resolveKeys, dictGet, h]
    | cons k2 r2 => simp [resolveKeys, dictGet, pyOr, h, ht]
  · intro p k k2 rest d v h ht
    exact resolveKeys_skip p k k2 rest d (by simp [h, ht])

/-- Witness for the amended C1: a truthy first key wins; with every key
absent the CSV default is the empty string and the Mongo default is null. -/
theorem field_resolution_amended_witness :
    resolveKeys [("bus_V", JValue.num 12)] ["bus_V", "voltage"] (.str "") = JValue.num 12 ∧
    resolveKeys [] ["bus_V", "voltage"] (.str "") = .str "" ∧
    resolveKeys [] ["bus_V", "voltage"] .null = .null ∧
    (normalizeCsv "t" "x" (some (.obj [("bus_V", .num 12)])) 0 "i").voltage = JValue.num 12 := by
  refine ⟨?h1, ?h2, ?h3, ?h4⟩
  case h1 => exact field_resolution_amended.2.1 _ "bus_V" ["voltage"] _ _ rfl (by decide)
  case h2 => exact field_resolution_amended.2.2.2 [] ["bus_V", "voltage"] _ (by simp)
  case h3 => exact field_resolution_amended.2.2.2 [] ["bus_V", "voltage"] _ (by simp)
  case h4 =>
    exact ((field_resolution_amended.1 [("bus_V", .num 12)] "t" "x" 0 "i").1).trans
      (field_resolution_amended.2.1 _ "bus_V" ["voltage"] _ _ rfl (by decide))

/-- C2 fails as stated: in `mqtt_to_mongo.py` a payload that parses to a
JSON array (here `[1, 2, 3]`) makes `payload.get` raise `AttributeError`;
the message-boundary handler logs it and no Reading/document is produced at
all, contradicting "the Normalizer still produces a Reading". -/
theorem normalizer_array_counterexample :
    (mongoOnMessage "battery/data" "[1, 2, 3]"
        (some (.arr [.num 1, .num 2, .num 3])) 0 "i" true).docBuilt = none ∧
    (mongoOnMessage "battery/data" "[1, 2, 3]"
        (some (.arr [.num 1, .num 2, .num 3])) 0 "i" true).msgErrorLogged = true :=
  ⟨rfl, rfl⟩

/-- C2 amended: `mqtt_to_csv.py` always produces a row — for every non-JSON
or non-object payload all metric fields are the empty string and
`raw_payload` is the original text. In `mqtt_to_mongo.py` only a *parse
failure* degrades gracefully (document with every metric field null, raw
text preserved); a payload that parses to a non-object raises inside the
handler, is caught at the message boundary, and yields no document — the
loop still continues in every case. -/
theorem normalizer_graceful_amended :
    (∀ (topic raw : String) (parsed : Option JValue) (ts : Int) (iso : String),
      (∀ kvs, parsed ≠ some (.obj kvs)) →
      (normalizeCsv topic raw parsed ts iso).voltage = .str "" ∧
      (normalizeCsv topic raw parsed ts iso).shunt_mV = .str "" ∧
      (normalizeCsv topic raw parsed ts iso).current = .str "" ∧
      (normalizeCsv topic raw parsed ts iso).power = .str "" ∧
      (normalizeCsv topic raw parsed ts iso).soc_percent = .str "" ∧
      (normalizeCsv topic raw parsed ts iso).soh_percent = .str "" ∧
      (normalizeCsv topic raw parsed ts iso).uptime_ms = .str "" ∧
      (normalizeCsv topic raw parsed ts iso).raw_payload = raw) ∧
    (∀ (topic raw : String) (ts : Int) (iso : String) (insertOk : Bool),
      (mongoOnMessage topic raw none ts iso insertOk).loopContinues = true ∧
      (mongoOnMessage topic raw none ts iso insertOk).docBuilt
        = some (mkMongoDoc topic raw [] ts iso) ∧
      (mkMongoDoc topic raw [] ts iso).voltage = .null ∧
      (mkMongoDoc topic raw [] ts iso).current = .null ∧
      (mkMongoDoc topic raw [] ts iso).power = .null ∧
      (mkMongoDoc topic raw [] ts iso).soc = .null ∧
      (mkMongoDoc topic raw [] ts iso).soh = .null ∧
      (mkMongoDoc topic raw [] ts iso).uptime_ms = .null ∧
      (mkMongoDoc topic raw [] ts iso).raw_payload = raw) ∧
    (∀ (topic raw : String) (v : JValue) (ts : Int) (iso : String) (insertOk : Bool),
      (∀ kvs, v ≠ .obj kvs) →
      (mongoOnMessage topic raw (some v) ts iso insertOk).docBuilt = none ∧
      (mongoOnMessage topic raw (some v) ts iso insertOk).msgErrorLogged = true ∧
      (mongoOnMessage topic raw (some v) ts iso insertOk).loopContinues = true) := by
  refine ⟨?_, ?_, ?_⟩
  · intro topic raw parsed ts iso h
    cases parsed with
    | none => exact ⟨rfl, rfl, rfl, rfl, rfl, rfl, rfl, rfl⟩
    | some v =>
      cases v
      case obj kvs => exact absurd rfl (h kvs)
      all_goals exact ⟨rfl, rfl, rfl, rfl, rfl, rfl, rfl, rfl⟩
  · intro topic raw ts iso insertOk
    exact ⟨rfl, rfl, rfl, rfl, rfl, rfl, rfl, rfl, rfl⟩
  · intro topic raw v ts iso insertOk h
    cases v
    case obj kvs => exact absurd rfl (h kvs)
    all_goals exact ⟨rfl, rfl, rfl⟩

/-- Witness for the amended C2 at topic `battery/data`, payload `not json`
(parse failure) and payload `[1]` (JSON array). -/
theorem normalizer_graceful_amended_witness :
    (normalizeCsv "battery/data" "not json" none 0 "i").voltage = .str "" ∧
    (normalizeCsv "battery/data" "not json" none 0 "i").raw_payload = "not json" ∧
    (mongoOnMessage "battery/data" "not json" none 0 "i" true).loopContinues = true ∧
    (mongoOnMessage "battery/data" "[1]" (some (.arr [.num 1])) 0 "i" true).docBuilt = none := by
  refine ⟨?h1, ?h2, ?h3, ?h4⟩
  case h1 =>
    exact (normalizer_graceful_amended.1 "battery/data" "not json" none 0 "i"
      (fun kvs h => by cases h)).1
  case h2 =>
    exact (normalizer_graceful_amended.1 "battery/data" "not json" none 0 "i"
      (fun kvs h => by cases h)).2.2.2.2.2.2.2
  case h3 =>
    exact (normalizer_graceful_amended.2.1 "battery/data" "not json" 0 "i" true).1
  case h4 =>
    exact (normalizer_graceful_amended.2.2 "battery/data" "[1]" (.arr [.num 1]) 0 "i" true
      (fun kvs h => by cases h)).1

/-- Unfolding helper: appending a batch of readings appends their cell rows
in order, leaving the existing content untouched. -/
theorem csvAppendAll_eq (rs : List CsvRow) (file : List (List JValue)) :
    csvAppendAll file rs = file ++ rs.map rowCells := by
  induction rs generalizing file with
  | nil => simp [csvAppendAll]
  | cons r rest ih =>
    simp [csvAppendAll, csvAppend] at ih ⊢
    rw [ih]
    simp

/-- C6: opening the CSV sink writes the fixed header exactly when the file
is absent and leaves an existing file untouched; appending N readings to a
fresh file yields exactly one header row followed by the N data rows in
order, each with the fixed column count of `FIELDNAMES` (ts, ts_iso, topic,
device_type, device_id, metric fields, raw_payload); re-opening across a
process restart changes nothing, and further appends extend the same file;
a reading whose payload has no source keys carries the empty string in
every metric column. -/
theorem csv_file_structure :
    csvInit none = [headerCells] ∧
    (∀ rows, csvInit (some rows) = rows) ∧
    (∀ rs : List CsvRow, csvAppendAll (csvInit none) rs = headerCells :: rs.map rowCells) ∧
    (∀ rs : List CsvRow, (csvAppendAll (csvInit none) rs).length = 1 + rs.length) ∧
    (∀ r : CsvRow, (rowCells r).length = FIELDNAMES.length) ∧
    (∀ rs rs' : List CsvRow,
      csvAppendAll (csvInit (some (csvAppendAll (csvInit none) rs))) rs'
        = headerCells :: (rs ++ rs').map rowCells) ∧
    (∀ (topic raw : String) (ts : Int) (iso : String),
      (normalizeCsv topic raw (some (.obj [])) ts iso).voltage = .str "" ∧
      (normalizeCsv topic raw (some (.obj [])) ts iso).shunt_mV = .str "" ∧
      (normalizeCsv topic raw (some (.obj [])) ts iso).current = .str "" ∧
      (normalizeCsv topic raw (some (.obj [])) ts iso).power = .str "" ∧
      (normalizeCsv topic raw (some (.obj [])) ts iso).soc_percent = .str "" ∧
      (normalizeCsv topic raw (some (.obj [])) ts iso).soh_percent = .str "" ∧
      (normalizeCsv topic raw (some (.obj [])) ts iso).uptime_ms = .str "") := by
  refine ⟨rfl, fun rows => rfl, fun rs => ?_, fun rs => ?_, fun r => rfl,
    fun rs rs' => ?_, fun topic raw ts iso => ⟨rfl, rfl, rfl, rfl, rfl, rfl, rfl⟩⟩
  · rw [csvAppendAll_eq]
    rfl
  · rw [csvAppendAll_eq]
    simp [csvInit, Nat.add_comm]
  · rw [csvAppendAll_eq, csvAppendAll_eq]
    simp [csvInit]

/-- C5: `MQTTToMongo.run` pings the document store first and, on ping
failure, raises before ever connecting to MQTT (fail-fast startup: the step
trace contains no `mqttConnect`); on ping success the MQTT connection and
the subscription loop follow the ping. After startup, a failed insert of a
single reading is caught and logged by `on_message` and the loop
continues for every message shape. -/
theorem mongo_startup_and_insert_isolation :
    (mongoRun false).2 = .error "Cannot connect to MongoDB" ∧
    (mongoRun false).1 = [.mongoPing] ∧
    RunStep.mqttConnect ∉ (mongoRun false).1 ∧
    (mongoRun true).1 = [.mongoPing, .mqttConnect, .subscribeLoop] ∧
    (mongoRun true).2 = .ok () ∧
    (∀ (topic raw : String) (parsed : Option JValue) (ts : Int) (iso : String),
      (mongoOnMessage topic raw parsed ts iso false).loopContinues = true) ∧
    (∀ (topic raw : String) (kvs : List (String × JValue)) (ts : Int) (iso : String),
      (mongoOnMessage topic raw (some (.obj kvs)) ts iso false).insertFailLogged = true ∧
      (mongoOnMessage topic raw (some (.obj kvs)) ts iso false).inserted = false ∧
      (mongoOnMessage topic raw (some (.obj kvs)) ts iso true).inserted = true) := by
  refine ⟨rfl, rfl, by decide, rfl, rfl, ?_, fun topic raw kvs ts iso => ⟨rfl, rfl, rfl⟩⟩
  intro topic raw parsed ts iso
  cases parsed with
  | none => rfl
  | some v => cases v <;> rfl

/-- C7 fails as stated: a 204 No Content response is a 2xx status, yet
`_send_to_supabase` treats it as a failure — line 231 accepts only the
statuses 200 and 201. -/
theorem any_2xx_counterexample :
    (sendToSupabase "https://proj.supabase.co" "KEY" true (some (.obj []))
        (normalizeCsv "t" "\x7b\x7d" (some (.obj [])) 0 "i") "t" 204).2
      = .error "Supabase insert failed" ∧
    200 ≤ 204 ∧ 204 < 300 := by
  refine ⟨rfl, by decide, by decide⟩

/-- C7 amended: with the `requests` module available and a payload dict
obtained, the sink issues exactly one POST whose body is a one-element JSON
array, to the fixed path `/rest/v1/telemetry` appended to the configured
base URL with trailing slashes stripped, with the `apikey` header carrying
the key and the `Authorization` header carrying `Bearer` plus the same key,
with a 10-second timeout; the call succeeds exactly for the statuses 200
and 201 — any other status, 2xx or not, is raised as a failure. -/
theorem supabase_request_shape (u k topic : String) (parsed : Option JValue)
    (row : CsvRow) (status : Nat) (p : List (String × JValue))
    (hp : supabasePayloadDict parsed row.raw_payload = .ok p) :
    (sendToSupabase u k true parsed row topic status).1
      = [{ url := rstripSlash u ++ "/rest/v1/telemetry"
           apikey := k
           authorization := "Bearer " ++ k
           contentType := "application/json"
           prefer := "return=representation"
           body := [mkSupabaseRecord p row topic]
           timeoutSeconds := 10 }] ∧
    ((sendToSupabase u k true parsed row topic status).2 = .ok ()
      ↔ (status = 200 ∨ status = 201)) := by
  simp only [sendToSupabase, Bool.not_true, Bool.false_eq_true, if_false, hp]
  split_ifs with h
  · simp [h]
  · simp [h]

/-- Witness for the amended C7 at a concrete request with status 200. -/
theorem supabase_request_shape_witness :
    (sendToSupabase "https://x.co/" "KEY" true (some (.obj []))
        (normalizeCsv "t" "\x7b\x7d" (some (.obj [])) 0 "i") "t" 200).1
      = [{ url := rstripSlash "https://x.co/" ++ "/rest/v1/telemetry"
           apikey := "KEY"
           authorization := "Bearer " ++ "KEY"
           contentType := "application/json"
           prefer := "return=representation"
           body := [mkSupabaseRecord []
             (normalizeCsv "t" "\x7b\x7d" (some (.obj [])) 0 "i") "t"]
           timeoutSeconds := 10 }] ∧
    ((sendToSupabase "https://x.co/" "KEY" true (some (.obj []))
        (normalizeCsv "t" "\x7b\x7d" (some (.obj [])) 0 "i") "t" 200).2 = .ok ()
      ↔ (200 = 200 ∨ 200 = 201)) :=
  supabase_request_shape "https://x.co/" "KEY" "t" (some (.obj []))
    (normalizeCsv "t" "\x7b\x7d" (some (.obj [])) 0 "i") 200 [] rfl

/-- C4: for every inbound message of `mqtt_to_csv.py` — whatever the remote
HTTP outcome (`status`), whether the HTTP client is available
(`hasRequests`) and whether the sink is configured at all (`config`) — the
handler returns normally so the subscription loop continues, the very first
event is the CSV append of the normalized reading (so the file sink has the
row before any HTTP attempt), and a raising Supabase upload is caught and
logged as an event rather than propagated. -/
theorem http_sink_isolated (topic raw : String) (parsed : Option JValue)
    (ts : Int) (iso : String) (config : Option (String × String))
    (hasRequests : Bool) (status : Nat) :
    (csvOnMessage topic raw parsed ts iso config hasRequests status).2 = true ∧
    (csvOnMessage topic raw parsed ts iso config hasRequests status).1.head?
      = some (.csvRow (rowCells (normalizeCsv topic raw parsed ts iso))) ∧
    (∀ (u k e : String), config = some (u, k) →
      (sendToSupabase u k hasRequests parsed
          (normalizeCsv topic raw parsed ts iso) topic status).2 = .error e →
      Event.log ("Supabase upload failed: " ++ e)
        ∈ (csvOnMessage topic raw parsed ts iso config hasRequests status).1) := by
  refine ⟨rfl, rfl, ?_⟩
  intro u k e hc he
  subst hc
  rcases hs : sendToSupabase u k hasRequests parsed
      (normalizeCsv topic raw parsed ts iso) topic status with ⟨reqs, res⟩
  rw [hs] at he
  have he' : res = .error e := he
  subst he'
  simp [csvOnMessage, supabaseTail, hs]

/-- Witness for C4: with the sink configured and the server answering 500,
the handler still continues, and the failure is logged. -/
theorem http_sink_isolated_witness :
    (csvOnMessage "battery/data" "not json" none 0 "i"
        (some ("https://x.co", "KEY")) true 500).2 = true ∧
    Event.log ("Supabase upload failed: " ++ "Supabase insert failed")
      ∈ (csvOnMessage "battery/data" "not json" none 0 "i"
          (some ("https://x.co", "KEY")) true 500).1 :=
  ⟨(http_sink_isolated "battery/data" "not json" none 0 "i"
      (some ("https://x.co", "KEY")) true 500).1,
   (http_sink_isolated "battery/data" "not json" none 0 "i"
      (some ("https://x.co", "KEY")) true 500).2.2 "https://x.co" "KEY"
      "Supabase insert failed" rfl rfl⟩

/-- C8: topic `battery/data` with payload text `not json` (which fails JSON
parsing): the CSV reading has every metric field equal to the empty string,
`raw_payload` exactly `not json`, and the legacy tag `battery` with the
sentinel id `esp32_bms`; the Mongo document has every metric field null,
the same raw payload, and its legacy tag `esp32` with sentinel `esp32_1`. -/
theorem battery_not_json_scenario :
    (normalizeCsv "battery/data" "not json" none 0 "iso").voltage = .str "" ∧
    (normalizeCsv "battery/data" "not json" none 0 "iso").shunt_mV = .str "" ∧
    (normalizeCsv "battery/data" "not json" none 0 "iso").current = .str "" ∧
    (normalizeCsv "battery/data" "not json" none 0 "iso").power = .str "" ∧
    (normalizeCsv "battery/data" "not json" none 0 "iso").soc_percent = .str "" ∧
    (normalizeCsv "battery/data" "not json" none 0 "iso").soh_percent = .str "" ∧
    (normalizeCsv "battery/data" "not json" none 0 "iso").uptime_ms = .str "" ∧
    (normalizeCsv "battery/data" "not json" none 0 "iso").raw_payload = "not json" ∧
    (normalizeCsv "battery/data" "not json" none 0 "iso").device_type = "battery" ∧
    (normalizeCsv "battery/data" "not json" none 0 "iso").device_id = "esp32_bms" ∧
    (mongoOnMessage "battery/data" "not json" none 0 "iso" true).docBuilt
      = some (mkMongoDoc "battery/data" "not json" [] 0 "iso") ∧
    (mkMongoDoc "battery/data" "not json" [] 0 "iso").voltage = .null ∧
    (mkMongoDoc "battery/data" "not json" [] 0 "iso").current = .null ∧
    (mkMongoDoc "battery/data" "not json" [] 0 "iso").power = .null ∧
    (mkMongoDoc "battery/data" "not json" [] 0 "iso").soc = .null ∧
    (mkMongoDoc "battery/data" "not json" [] 0 "iso").soh = .null ∧
    (mkMongoDoc "battery/data" "not json" [] 0 "iso").uptime_ms = .null ∧
    (mkMongoDoc "battery/data" "not json" [] 0 "iso").raw_payload = "not json" ∧
    (mkMongoDoc "battery/data" "not json" [] 0 "iso").device_type = "esp32" := by
  exact ⟨rfl, rfl, rfl, rfl, rfl, rfl, rfl, rfl, rfl, rfl, rfl, rfl, rfl, rfl,
    rfl, rfl, rfl, rfl, rfl⟩
